import Mathlib

/-!
Verification of the Tranzio request-resolution pipeline.

Shallow embedding of the repository's core modules:
  * `src/utils/structuredOutput.js` (output normalizer),
  * `src/rag.js` (glossary store and retrieval resolver),
  * `src/prompts/*.js` (prompt builders and the complexity classifier),
  * `src/functions.js` (function-call schema validation),
  * `src/translator.js` (the translate pipeline and text-response parsing).

JavaScript strings become Lean `String`; JS `null`/`undefined` optionality
becomes `Option`; JS truthiness of strings (`s || d` treats `""` like
absence) is modelled by `jsOr`; numbers that carry translation confidence
become `Rat`; the wall clock (`new Date().toISOString()`) becomes an
explicit `now : Nat` parameter; the external model call and the glossary
file read become explicit outcome parameters (`Except` / `Option`).
-/

namespace Tranzio

/-! ## JavaScript string primitives -/

/-- The character class of the JS regex `\s` (and of `String.prototype.trim`). -/
def isJsWhitespace (c : Char) : Bool :=
  [' ', '\t', '\n', '\r', '\x0b', '\x0c', ' ', ' ',
   ' ', ' ', ' ', ' ', ' ', ' ', ' ',
   ' ', ' ', ' ', ' ', ' ', ' ', ' ',
   ' ', '　', '﻿'].contains c

/-- JS `String.prototype.trim`: strip whitespace from both ends. -/
def jsTrim (s : String) : String :=
  String.mk (((s.data.dropWhile isJsWhitespace).reverse.dropWhile isJsWhitespace).reverse)

/-- JS `String.prototype.toLowerCase` restricted to its ASCII action
(the glossary keys and all inputs of interest are ASCII). -/
def jsToLower (s : String) : String :=
  String.mk (s.data.map Char.toLower)

/-- Worker for `jsSplitWS`: scan the characters splitting at maximal
whitespace runs. Mode `false` accumulates the current fragment (reversed in
`acc`); mode `true` is skipping the interior of a whitespace run. Keeps the
empty fragments that JS `split(/\s+/)` produces at the two ends. -/
def splitWSAux : Bool → List Char → List Char → List String
  | false, [], acc => [String.mk acc.reverse]
  | false, c :: rest, acc =>
    if isJsWhitespace c then String.mk acc.reverse :: splitWSAux true rest []
    else splitWSAux false rest (c :: acc)
  | true, [], _ => [""]
  | true, c :: rest, _ =>
    if isJsWhitespace c then splitWSAux true rest []
    else splitWSAux false rest [c]

/-- JS `text.split(/\s+/)`: on `""` it yields `[""]`, and a leading or
trailing separator contributes an empty fragment. -/
def jsSplitWS (s : String) : List String :=
  splitWSAux false s.data []

/-- JS `v || dflt` on an optional string: `null`/`undefined` and `""` are
falsy and select the default. -/
def jsOr (v : Option String) (dflt : String) : String :=
  match v with
  | none => dflt
  | some s => if s = "" then dflt else s

/-- JS truthiness of an optional string (used by `sourceLang ? ... : ...`). -/
def jsTruthy (v : Option String) : Bool :=
  match v with
  | none => false
  | some s => !(s = "")

/-! ## `src/utils/structuredOutput.js` -/

/-- A partial translation record as passed to `formatStructuredOutput`:
every field of the canonical shape may be absent (`none` models a JS key
that is absent, `undefined` or `null`). `source` is the extra provenance
field the RAG module sends through the spread. -/
structure RawData where
  source_language : Option String := none
  target_language : Option String := none
  translated_text : Option String := none
  status : Option String := none
  timestamp : Option Nat := none
  confidence : Option Rat := none
  cultural_notes : Option String := none
  error : Option String := none
  source : Option String := none
deriving Repr, DecidableEq

/-- The canonical TranslationResult shape produced by `formatStructuredOutput`
(`DEFAULT_RESPONSE_STRUCTURE` overlaid with the supplied data). -/
@[ext] structure TranslationResult where
  source_language : String
  target_language : String
  translated_text : String
  status : String
  timestamp : Nat
  confidence : Rat
  cultural_notes : String
  error : Option String
  source : Option String
deriving Repr, DecidableEq

/-- `formatStructuredOutput(data)`:
`{...DEFAULT_RESPONSE_STRUCTURE, ...data, timestamp, source_language: data.source_language || 'auto-detected', target_language: data.target_language || '', translated_text: data.translated_text || '', status: data.status || 'success'}`.
The spread of the defaults gives `confidence` 1.0, `cultural_notes` `""` and
`error` null when the data lacks them; the four `||` lines additionally turn
an empty string into the default. -/
def formatStructuredOutput (now : Nat) (data : RawData) : TranslationResult :=
  { source_language := jsOr data.source_language "auto-detected"
    target_language := jsOr data.target_language ""
    translated_text := jsOr data.translated_text ""
    status := jsOr data.status "success"
    timestamp := now
    confidence := data.confidence.getD 1
    cultural_notes := data.cultural_notes.getD ""
    error := data.error
    source := data.source }

/-- Re-reading a full `TranslationResult` as input data (every key present),
as happens when `formatStructuredOutput` is applied to its own output. -/
def resultToData (r : TranslationResult) : RawData :=
  { source_language := some r.source_language
    target_language := some r.target_language
    translated_text := some r.translated_text
    status := some r.status
    timestamp := some r.timestamp
    confidence := some r.confidence
    cultural_notes := some r.cultural_notes
    error := r.error
    source := r.source }

/-- `createSuccessResponse(translatedText, sourceLang, targetLang, additionalData)`
where the `additionalData` used by the RAG module carries `confidence`,
`cultural_notes` and `source`. -/
def createSuccessResponse (now : Nat) (translatedText sourceLang targetLang : String)
    (confidence : Option Rat) (culturalNotes : Option String)
    (source : Option String) : TranslationResult :=
  formatStructuredOutput now
    { source_language := some sourceLang
      target_language := some targetLang
      translated_text := some translatedText
      status := some "success"
      confidence := confidence
      cultural_notes := culturalNotes
      source := source }

/-! ## `src/rag.js` -/

/-- A glossary: normalized phrase → (target language → translation),
as an association list mirroring the nested JSON object. -/
abbrev Glossary := List (String × List (String × String))

/-- The built-in `DEFAULT_GLOSSARY` of `src/rag.js`. -/
def DEFAULT_GLOSSARY : Glossary :=
  [ ("hello",
      [("Spanish", "hola"), ("French", "bonjour"), ("German", "hallo"),
       ("Italian", "ciao"), ("Portuguese", "olá"), ("Russian", "привет"),
       ("Japanese", "こんにちは"), ("Korean", "안녕하세요"), ("Chinese", "你好"),
       ("Arabic", "مرحبا")]),
    ("goodbye",
      [("Spanish", "adiós"), ("French", "au revoir"), ("German", "auf wiedersehen"),
       ("Italian", "arrivederci"), ("Portuguese", "adeus"), ("Russian", "до свидания"),
       ("Japanese", "さようなら"), ("Korean", "안녕히 가세요"), ("Chinese", "再见"),
       ("Arabic", "مع السلامة")]),
    ("thank you",
      [("Spanish", "gracias"), ("French", "merci"), ("German", "danke"),
       ("Italian", "grazie"), ("Portuguese", "obrigado"), ("Russian", "спасибо"),
       ("Japanese", "ありがとう"), ("Korean", "감사합니다"), ("Chinese", "谢谢"),
       ("Arabic", "شكرا")]),
    ("yes",
      [("Spanish", "sí"), ("French", "oui"), ("German", "ja"),
       ("Italian", "sì"), ("Portuguese", "sim"), ("Russian", "да"),
       ("Japanese", "はい"), ("Korean", "네"), ("Chinese", "是"),
       ("Arabic", "نعم")]),
    ("no",
      [("Spanish", "no"), ("French", "non"), ("German", "nein"),
       ("Italian", "no"), ("Portuguese", "não"), ("Russian", "нет"),
       ("Japanese", "いいえ"), ("Korean", "아니요"), ("Chinese", "不"),
       ("Arabic", "لا")]) ]

/-- Property access `glossary[phrase][lang]`: `none` when either key is absent. -/
def glossaryLookup (glossary : Glossary) (phrase lang : String) : Option String :=
  match glossary.lookup phrase with
  | some entry => entry.lookup lang
  | none => none

/-- The truthiness test `glossary[phrase] && glossary[phrase][lang]` used by
both lookup sites of `src/rag.js`: an empty translation string is falsy and
counts as a miss. -/
def truthyLookup (glossary : Glossary) (phrase lang : String) : Option String :=
  match glossaryLookup glossary phrase lang with
  | some tr => if tr = "" then none else some tr
  | none => none

/-- `loadGlossary()`: a successful file read supplies a glossary, any read
or parse failure is swallowed and falls back to `DEFAULT_GLOSSARY`.
The `file` parameter is the outcome of the `fs.readFile`+`JSON.parse` pipeline
(`none` = missing or corrupt file). -/
def loadGlossary (file : Option Glossary) : Glossary :=
  file.getD DEFAULT_GLOSSARY

/-- `findPartialMatch(text, targetLang, glossary)`: split on whitespace; if
every word has a (truthy) glossary translation for the target language,
join the per-word translations with single spaces into a compositional hit,
otherwise miss. -/
def findPartialMatch (now : Nat) (text targetLang : String)
    (glossary : Glossary) : Option TranslationResult :=
  let words := jsSplitWS text
  if words.all (fun word => (truthyLookup glossary word targetLang).isSome) then
    let translation :=
      String.intercalate " " (words.map (fun word => (truthyLookup glossary word targetLang).getD ""))
    some (createSuccessResponse now translation "auto-detected" targetLang
      (some (9/10)) (some "Constructed from individual word translations") (some "rag_partial"))
  else
    none

/-- `checkRAG(text, targetLang, sourceLang)`: normalize the text (lowercase
then trim), try the exact glossary hit, then the compositional fallback,
else miss (`none` routes the pipeline to the model call). Internal errors
are swallowed by its own `catch` (all the embedded operations are total). -/
def checkRAG (now : Nat) (file : Option Glossary) (text targetLang : String)
    (sourceLang : Option String) : Option TranslationResult :=
  let glossary := loadGlossary file
  let normalizedText := jsTrim (jsToLower text)
  match truthyLookup glossary normalizedText targetLang with
  | some translation =>
      some (createSuccessResponse now translation (jsOr sourceLang "auto-detected")
        targetLang (some 1) (some "Retrieved from local glossary") (some "rag"))
  | none => findPartialMatch now normalizedText targetLang glossary

/-! ## `src/prompts/*.js` -/

/-- The `sourceLangInstruction` ternary shared verbatim by every prompt
template (`sourceLang ? ... : ...`, so an empty string also auto-detects). -/
def sourceLangInstruction (sourceLang : Option String) : String :=
  if jsTruthy sourceLang then
    "The text is in " ++ sourceLang.getD "" ++ "."
  else
    "Please auto-detect the source language."

/-- `getZeroShotPrompt` of `src/prompts/zeroShot.js`. -/
def getZeroShotPrompt (text targetLang : String) (sourceLang : Option String) : String :=
  "You are a professional translator. " ++ sourceLangInstruction sourceLang ++
  "\n\nPlease translate the following text to " ++ targetLang ++ ":\n\n\"" ++ text ++
  "\"\n\nProvide only the translated text without any additional explanations or formatting."

/-- `getOneShotPrompt` of `src/prompts/oneShot.js`. -/
def getOneShotPrompt (text targetLang : String) (sourceLang : Option String) : String :=
  "You are a professional translator. " ++ sourceLangInstruction sourceLang ++
  "\n\nHere\x27s an example of how to translate:\n\nInput: \"Good morning, how are you today?\"\nSource: English\nTarget: Spanish\nOutput: \"Buenos días, ¿cómo estás hoy?\"\n\nNow please translate the following text to " ++
  targetLang ++ ":\n\n\"" ++ text ++
  "\"\n\nProvide only the translated text without any additional explanations or formatting."

/-- `getMultiShotPrompt` of `src/prompts/multiShot.js`. -/
def getMultiShotPrompt (text targetLang : String) (sourceLang : Option String) : String :=
  "You are a professional translator with expertise in " ++ targetLang ++ ". " ++
  sourceLangInstruction sourceLang ++
  "\n\nHere are several examples of high-quality translations:\n\nExample 1:\nInput: \"It\x27s raining cats and dogs\"\nSource: English\nTarget: Spanish\nOutput: \"Está lloviendo a cántaros\"\n\nExample 2:\nInput: \"The early bird catches the worm\"\nSource: English\nTarget: French\nOutput: \"L\x27oiseau matinal attrape le ver\"\n\nExample 3:\nInput: \"Actions speak louder than words\"\nSource: English\nTarget: German\nOutput: \"Taten sagen mehr als Worte\"\n\nExample 4:\nInput: \"Don\x27t judge a book by its cover\"\nSource: English\nTarget: Italian\nOutput: \"Non giudicare un libro dalla copertina\"\n\nNow please translate the following text to " ++
  targetLang ++ ", maintaining the same level of quality and cultural sensitivity:\n\n\"" ++ text ++
  "\"\n\nProvide only the translated text without any additional explanations or formatting."

/-- `getChainOfThoughtPrompt` of `src/prompts/chainOfThought.js`. -/
def getChainOfThoughtPrompt (text targetLang : String) (sourceLang : Option String) : String :=
  "You are a professional translator with expertise in " ++ targetLang ++ ". " ++
  sourceLangInstruction sourceLang ++
  "\n\nPlease translate the following text to " ++ targetLang ++
  " by following these steps:\n\n1. First, identify the source language and any cultural context\n2. Break down the text into logical components\n3. Identify any idioms, metaphors, or cultural references\n4. Consider the appropriate translation strategy for each component\n5. Provide the final translation\n\nText to translate: \"" ++
  text ++ "\"\n\nPlease think through this step by step and then provide your final translation."

/-- The idiom allow-list of the regex
`/(it's raining cats and dogs|early bird|actions speak|book by its cover)/i`. -/
def IDIOM_PATTERNS : List String :=
  ["it\x27s raining cats and dogs", "early bird", "actions speak", "book by its cover"]

/-- Substring containment (the semantics of `RegExp.prototype.test` for a
literal alternative). -/
def containsSubstring (hay needle : String) : Bool :=
  decide (needle.data <:+: hay.data)

/-- `hasIdioms`: the case-insensitive idiom regex matches somewhere in the text. -/
def hasIdioms (text : String) : Bool :=
  IDIOM_PATTERNS.any (fun p => containsSubstring (jsToLower text) p)

/-- The JS regex word class `\w` = `[A-Za-z0-9_]`. -/
def isWordChar (c : Char) : Bool :=
  ('a' ≤ c && c ≤ 'z') || ('A' ≤ c && c ≤ 'Z') || ('0' ≤ c && c ≤ '9') || c = '_'

/-- The punctuation allowed by `analyzeTextComplexity`'s special-character
regex `[^\w\s.,!?;:'"()]`. -/
def isAllowedPunct (c : Char) : Bool :=
  ['.', ',', '!', '?', ';', ':', '\x27', '"', '(', ')'].contains c

/-- `hasSpecialChars`: some character falls outside `\w`, `\s` and the
allowed punctuation. -/
def hasSpecialChars (text : String) : Bool :=
  text.data.any (fun c => !(isWordChar c || isJsWhitespace c || isAllowedPunct c))

/-- `analyzeTextComplexity` of `src/prompts/dynamic.js`. (`hasNumbers` is
computed by the source but never read, so it is omitted.) -/
def analyzeTextComplexity (text : String) : String :=
  let wordCount := (jsSplitWS text).length
  if wordCount ≤ 5 && !(hasIdioms text) && !(hasSpecialChars text) then "simple"
  else if wordCount ≤ 15 && !(hasIdioms text) then "moderate"
  else "complex"

/-- `getTranslationPrompt`: automatic strategy selection by complexity. -/
def getTranslationPrompt (text targetLang : String) (sourceLang : Option String) : String :=
  let complexity := analyzeTextComplexity text
  if complexity = "simple" then getZeroShotPrompt text targetLang sourceLang
  else if complexity = "moderate" then getOneShotPrompt text targetLang sourceLang
  else getMultiShotPrompt text targetLang sourceLang

/-- `getPromptByStrategy`: the explicit strategy override; any string other
than `"zero"`, `"one"`, `"multi"` (including `"auto"`, the default) falls
through to the automatic selection. -/
def getPromptByStrategy (text targetLang : String) (sourceLang : Option String)
    (strategy : String) : String :=
  if strategy = "zero" then getZeroShotPrompt text targetLang sourceLang
  else if strategy = "one" then getOneShotPrompt text targetLang sourceLang
  else if strategy = "multi" then getMultiShotPrompt text targetLang sourceLang
  else getTranslationPrompt text targetLang sourceLang

/-! ## `src/functions.js` -/

/-- Arguments of a `translate_text` function call, per the schema of
`getFunctionSchema` (all fields optional at the JS level). -/
structure FunctionArgs where
  text : Option String := none
  sourceLang : Option String := none
  targetLang : Option String := none
  translatedText : Option String := none
  confidence : Option Rat := none
  culturalNotes : Option String := none
deriving Repr, DecidableEq

/-- `validateFunctionArgs(args)`: the three required fields are present,
strings, and truthy (non-empty). -/
def validateFunctionArgs (args : Option FunctionArgs) : Bool :=
  match args with
  | none => false
  | some a => jsTruthy a.sourceLang && jsTruthy a.targetLang && jsTruthy a.translatedText

/-! ## `src/translator.js` -/

/-- The function-call part extracted from
`response.candidates[0].content.parts[0].functionCall`. -/
structure FunctionCall where
  args : Option FunctionArgs
deriving Repr, DecidableEq

/-- The shape of the model response `translate` consumes: the optional
structured call and the free-text body `response.text()`. A malformed
response (missing candidates, a throwing accessor, a network or quota
error) is modelled as the `Except.error` outcome of the model boundary. -/
structure ModelResponse where
  functionCall : Option FunctionCall
  text : String
deriving Repr, DecidableEq

/-- The span matched by `response.match(/\x7b[\s\S]*\x7d/)`: from the first
opening brace that has a closing brace after it, greedily to the last
closing brace of the string; `none` when the regex does not match. -/
def braceSpan (s : String) : Option String :=
  let cs := s.data
  match cs.reverse.findIdx? (fun c => c = '}') with
  | none => none
  | some rrev =>
    let r := cs.length - 1 - rrev
    match cs.findIdx? (fun c => c = '{') with
    | none => none
    | some i => if i < r then some (String.mk ((cs.drop i).take (r - i + 1))) else none

/-- `parseTextResponse(response, targetLang, sourceLang)`: scan for a brace
span; parse it on success; parse failure is caught and degrades to the
trimmed raw text with `partial_success`; no span at all returns the trimmed
raw text as a `success`. `jsonParse` is the `JSON.parse` oracle of the JS
runtime (`none` = the parse threw). -/
def parseTextResponse (jsonParse : String → Option RawData) (now : Nat)
    (response targetLang : String) (sourceLang : Option String) : TranslationResult :=
  match braceSpan response with
  | some span =>
    match jsonParse span with
    | some parsed => formatStructuredOutput now parsed
    | none =>
      formatStructuredOutput now
        { source_language := some (jsOr sourceLang "unknown")
          target_language := some targetLang
          translated_text := some (jsTrim response)
          status := some "partial_success"
          error := some "Failed to parse structured response" }
  | none =>
    formatStructuredOutput now
      { source_language := some (jsOr sourceLang "auto-detected")
        target_language := some targetLang
        translated_text := some (jsTrim response)
        status := some "success" }

/-- `translate(text, targetLang, sourceLang)` of `src/translator.js`:
RAG first; on miss, the model boundary is invoked (its outcome — including
every throw inside the `try` — is the `modelOutcome` parameter, caught by
the surrounding `catch` when it is an error); a structured function call with
args is used directly, otherwise the free text is parsed. Totality of this
function is the embedding of "translate never raises to the caller". -/
def translate (now : Nat) (file : Option Glossary) (jsonParse : String → Option RawData)
    (text targetLang : String) (sourceLang : Option String)
    (modelOutcome : Except String ModelResponse) : TranslationResult :=
  match checkRAG now file text targetLang sourceLang with
  | some ragResult => ragResult
  | none =>
    match modelOutcome with
    | Except.error msg =>
      formatStructuredOutput now
        { source_language := some (jsOr sourceLang "unknown")
          target_language := some targetLang
          translated_text := some ""
          status := some "error"
          error := some msg }
    | Except.ok response =>
      match response.functionCall with
      | some functionCall =>
        match functionCall.args with
        | some args =>
          formatStructuredOutput now
            { source_language := some (jsOr args.sourceLang "auto-detected")
              target_language := args.targetLang
              translated_text := args.translatedText
              status := some "success" }
        | none => parseTextResponse jsonParse now response.text targetLang sourceLang
      | none => parseTextResponse jsonParse now response.text targetLang sourceLang

/-! ## Helper lemmas -/

/-- Applying a JS `||` default twice is the same as applying it once. -/
theorem jsOr_some_jsOr (o : Option String) (d : String) :
    jsOr (some (jsOr o d)) d = jsOr o d := by
  cases o with
  | none => by_cases hd : d = "" <;> simp [jsOr, hd]
  | some s => by_cases hs : s = "" <;> by_cases hd : d = "" <;> simp [jsOr, hs, hd]

/-- `jsOr` over an empty default is the identity on present strings. -/
theorem jsOr_some_empty (s : String) : jsOr (some s) "" = s := by
  by_cases h : s = "" <;> simp [jsOr, h]

/-- A present non-empty string wins over any default. -/
theorem jsOr_some_of_ne {s : String} (d : String) (h : s ≠ "") : jsOr (some s) d = s := by
  simp [jsOr, h]

/-- `jsOr` with a non-empty default never returns the empty string. -/
theorem jsOr_ne_empty (o : Option String) {d : String} (hd : d ≠ "") : jsOr o d ≠ "" := by
  cases o with
  | none => simpa [jsOr] using hd
  | some s => by_cases hs : s = "" <;> simp [jsOr, hs, hd]

/-- A successful association-list lookup returns the second component of
some member of the list. -/
theorem lookup_mem_snd {β : Type} : ∀ (l : List (String × β)) (k : String) (v : β),
    l.lookup k = some v → ∃ p, p ∈ l ∧ p.2 = v
  | [], _, _, h => by simp [List.lookup] at h
  | (a, b) :: t, k, v, h => by
    rcases hk : (k == a) with _ | _
    · obtain ⟨p, hp, hv⟩ := lookup_mem_snd t k v (by simpa [List.lookup, hk] using h)
      exact ⟨p, List.mem_cons_of_mem _ hp, hv⟩
    · refine ⟨(a, b), List.mem_cons_self _ _, ?_⟩
      simpa [List.lookup, hk] using h

/-- No translation stored in the built-in default glossary is the empty string. -/
theorem DEFAULT_GLOSSARY_values_ne_empty :
    DEFAULT_GLOSSARY.all (fun e => e.2.all (fun kv => !(kv.2 = ""))) = true := by decide

/-- A stored default-glossary translation is non-empty. -/
theorem glossaryLookup_default_ne_empty (P L tr : String)
    (h : glossaryLookup DEFAULT_GLOSSARY P L = some tr) : tr ≠ "" := by
  unfold glossaryLookup at h
  rcases hE : DEFAULT_GLOSSARY.lookup P with _ | entry
  · rw [hE] at h; exact absurd h (by simp)
  · rw [hE] at h
    obtain ⟨p, hp, hv⟩ := lookup_mem_snd DEFAULT_GLOSSARY P entry hE
    obtain ⟨q, hq, hv2⟩ := lookup_mem_snd entry L tr h
    have h1 := (List.all_eq_true.mp DEFAULT_GLOSSARY_values_ne_empty) p hp
    rw [hv] at h1
    have h2 := (List.all_eq_true.mp h1) q hq
    rw [hv2] at h2
    simpa using h2

/-- `createSuccessResponse` spelled out field by field. -/
theorem createSuccessResponse_spec (now : Nat) (translatedText sourceLang targetLang : String)
    (conf : Option Rat) (notes : Option String) (src : Option String) :
    createSuccessResponse now translatedText sourceLang targetLang conf notes src =
      { source_language := jsOr (some sourceLang) "auto-detected"
        target_language := jsOr (some targetLang) ""
        translated_text := jsOr (some translatedText) ""
        status := "success"
        timestamp := now
        confidence := conf.getD 1
        cultural_notes := notes.getD ""
        error := none
        source := src } := rfl

/-- The source-language field of a compositional RAG hit. -/
theorem findPartialMatch_source_language (now : Nat) (text targetLang : String)
    (g : Glossary) (r : TranslationResult) (h : findPartialMatch now text targetLang g = some r) :
    r.source_language = "auto-detected" := by
  unfold findPartialMatch at h
  dsimp only at h
  split at h
  · cases h
    rw [createSuccessResponse_spec]
    rfl
  · cases h

/-! ## Claim theorems -/

/-- Claim C8: normalization is idempotent — re-normalizing a normalized
result changes nothing but the timestamp, which is refreshed. -/
theorem formatStructuredOutput_idempotent (t1 t2 : Nat) (d : RawData) :
    formatStructuredOutput t2 (resultToData (formatStructuredOutput t1 d)) =
      { formatStructuredOutput t1 d with timestamp := t2 } := by
  simp only [formatStructuredOutput, resultToData, jsOr_some_jsOr, Option.getD_some]

/-- Claim C3 (as stated): the compositional fallback succeeds exactly when
every whitespace-split token has its own (truthy) glossary entry for the
target language; on success the result is a `success` with confidence 0.9,
the space-joined per-token translations in order, and source language
`auto-detected`; and the compositional path of `checkRAG` is reached
independently of any caller-supplied source language. -/
theorem findPartialMatch_compositional (now : Nat) (g : Glossary) (text targetLang : String) :
    ((findPartialMatch now text targetLang g).isSome = true ↔
      (jsSplitWS text).all (fun w => (truthyLookup g w targetLang).isSome) = true)
    ∧ (∀ r, findPartialMatch now text targetLang g = some r →
        r.status = "success" ∧ r.confidence = 9/10 ∧ r.source_language = "auto-detected" ∧
        r.translated_text =
          String.intercalate " "
            ((jsSplitWS text).map (fun w => (truthyLookup g w targetLang).getD "")))
    ∧ (∀ (file : Option Glossary) (sl : Option String),
        truthyLookup (loadGlossary file) (jsTrim (jsToLower text)) targetLang = none →
        loadGlossary file = g →
        checkRAG now file text targetLang sl =
          findPartialMatch now (jsTrim (jsToLower text)) targetLang g) := by
  refine ⟨?_, ?_, ?_⟩
  · unfold findPartialMatch
    dsimp only
    split
    · simp_all
    · simp_all
  · intro r hr
    unfold findPartialMatch at hr
    dsimp only at hr
    split at hr
    · cases hr
      rw [createSuccessResponse_spec]
      refine ⟨rfl, rfl, rfl, ?_⟩
      exact jsOr_some_empty _
    · cases hr
  · intro file sl hmiss hg
    rw [hg] at hmiss
    unfold checkRAG
    rw [hg]
    dsimp only
    rw [hmiss]

/-- Claim C4: any phrase of the built-in default glossary resolves, for any
stored target language, to a `success` with confidence 1.0 and the stored
translation — whatever the input casing and surrounding whitespace. -/
theorem checkRAG_defaultGlossary_hit (now : Nat) (x P L tr : String) (sl : Option String)
    (hnorm : jsTrim (jsToLower x) = P)
    (hP : glossaryLookup DEFAULT_GLOSSARY P L = some tr) :
    ∃ r, checkRAG now none x L sl = some r ∧
      r.status = "success" ∧ r.confidence = 1 ∧ r.translated_text = tr := by
  have hne : tr ≠ "" := glossaryLookup_default_ne_empty P L tr hP
  have htruthy : truthyLookup DEFAULT_GLOSSARY P L = some tr := by
    simp [truthyLookup, hP, hne]
  have hstep : checkRAG now none x L sl =
      some (createSuccessResponse now tr (jsOr sl "auto-detected") L (some 1)
        (some "Retrieved from local glossary") (some "rag")) := by
    unfold checkRAG
    simp only [loadGlossary, Option.getD_none, hnorm, htruthy]
  refine ⟨_, hstep, ?_, ?_, ?_⟩
  · simp [createSuccessResponse_spec]
  · simp [createSuccessResponse_spec]
  · simp [createSuccessResponse_spec]
    exact jsOr_some_of_ne _ hne

/-- Witness for C4 at the spec's concrete scenario, with casing and
whitespace perturbed: `"  Hello "` → Spanish resolves to `"hola"`. -/
theorem checkRAG_defaultGlossary_hit_witness :
    ∃ r, checkRAG 0 none "  Hello " "Spanish" none = some r ∧
      r.status = "success" ∧ r.confidence = 1 ∧ r.translated_text = "hola" :=
  checkRAG_defaultGlossary_hit 0 "  Hello " "hello" "Spanish" "hola" none
    (by decide) (by decide)

/-- Witness for C3 at the spec's concrete scenario: `"hello goodbye"` →
French composes to a hit, and the compositional path ignores the
caller-supplied source language. -/
theorem findPartialMatch_compositional_witness :
    (findPartialMatch 0 "hello goodbye" "French" DEFAULT_GLOSSARY).isSome = true ∧
    checkRAG 0 none "hello goodbye" "French" (some "English") =
      findPartialMatch 0 "hello goodbye" "French" DEFAULT_GLOSSARY :=
  ⟨(findPartialMatch_compositional 0 DEFAULT_GLOSSARY "hello goodbye" "French").1.mpr
      (by decide),
   (findPartialMatch_compositional 0 DEFAULT_GLOSSARY "hello goodbye" "French").2.2
      none (some "English") (by decide) rfl⟩

/-- The classifier emits `"simple"` when the first heuristic matches. -/
theorem analyzeTextComplexity_eq_simple (text : String)
    (h1 : (jsSplitWS text).length ≤ 5) (h2 : hasIdioms text = false)
    (h3 : hasSpecialChars text = false) :
    analyzeTextComplexity text = "simple" := by
  unfold analyzeTextComplexity
  dsimp only
  rw [if_pos (by simp [h1, h2, h3])]

/-- The classifier emits `"moderate"` when the first heuristic fails and the
second matches. -/
theorem analyzeTextComplexity_eq_moderate (text : String)
    (h1 : ¬((jsSplitWS text).length ≤ 5 ∧ hasIdioms text = false ∧
        hasSpecialChars text = false))
    (h2 : (jsSplitWS text).length ≤ 15) (h3 : hasIdioms text = false) :
    analyzeTextComplexity text = "moderate" := by
  unfold analyzeTextComplexity
  dsimp only
  have hc1 : ¬((decide ((jsSplitWS text).length ≤ 5) && !hasIdioms text &&
      !hasSpecialChars text) = true) := by
    intro hc
    simp only [Bool.and_eq_true, decide_eq_true_eq, Bool.not_eq_true'] at hc
    exact h1 ⟨hc.1.1, hc.1.2, hc.2⟩
  rw [if_neg hc1, if_pos (by simp [h2, h3])]

/-- The classifier emits `"complex"` when the second heuristic fails
(the first then fails as well, since 5 ≤ 15). -/
theorem analyzeTextComplexity_eq_complex (text : String)
    (h2 : ¬((jsSplitWS text).length ≤ 15 ∧ hasIdioms text = false)) :
    analyzeTextComplexity text = "complex" := by
  unfold analyzeTextComplexity
  dsimp only
  have hc1 : ¬((decide ((jsSplitWS text).length ≤ 5) && !hasIdioms text &&
      !hasSpecialChars text) = true) := by
    intro hc
    simp only [Bool.and_eq_true, decide_eq_true_eq, Bool.not_eq_true'] at hc
    exact h2 ⟨Nat.le_trans hc.1.1 (by norm_num), hc.1.2⟩
  have hc2 : ¬((decide ((jsSplitWS text).length ≤ 15) && !hasIdioms text) = true) := by
    intro hc
    simp only [Bool.and_eq_true, decide_eq_true_eq, Bool.not_eq_true'] at hc
    exact h2 ⟨hc.1, hc.2⟩
  rw [if_neg hc1, if_neg hc2]

/-- Claim C5: the classifier's heuristics are evaluated in order with the
first match winning — at most 5 words with no idiom and no special
character selects the zero-shot (minimal) prompt; otherwise at most 15
words with no idiom selects the one-shot (single-example) prompt; every
other text gets the multi-shot (multi-example) prompt. -/
theorem getTranslationPrompt_heuristics (text targetLang : String) (sourceLang : Option String) :
    (((jsSplitWS text).length ≤ 5 ∧ hasIdioms text = false ∧ hasSpecialChars text = false) →
      getTranslationPrompt text targetLang sourceLang = getZeroShotPrompt text targetLang sourceLang)
    ∧ (¬((jsSplitWS text).length ≤ 5 ∧ hasIdioms text = false ∧ hasSpecialChars text = false) →
        ((jsSplitWS text).length ≤ 15 ∧ hasIdioms text = false) →
        getTranslationPrompt text targetLang sourceLang = getOneShotPrompt text targetLang sourceLang)
    ∧ (¬((jsSplitWS text).length ≤ 5 ∧ hasIdioms text = false ∧ hasSpecialChars text = false) →
        ¬((jsSplitWS text).length ≤ 15 ∧ hasIdioms text = false) →
        getTranslationPrompt text targetLang sourceLang =
          getMultiShotPrompt text targetLang sourceLang) := by
  refine ⟨fun h => ?_, fun h1 h2 => ?_, fun h1 h2 => ?_⟩
  · have hA := analyzeTextComplexity_eq_simple text h.1 h.2.1 h.2.2
    unfold getTranslationPrompt
    rw [hA, if_pos rfl]
  · have hA := analyzeTextComplexity_eq_moderate text h1 h2.1 h2.2
    unfold getTranslationPrompt
    rw [hA, if_neg (by decide), if_pos rfl]
  · have hA := analyzeTextComplexity_eq_complex text h2
    unfold getTranslationPrompt
    rw [hA, if_neg (by decide), if_neg (by decide)]

/-- Witness for C5: one concrete text per heuristic tier. -/
theorem getTranslationPrompt_heuristics_witness :
    getTranslationPrompt "hi" "French" none = getZeroShotPrompt "hi" "French" none ∧
    getTranslationPrompt "this is a longer sentence okay now" "French" none =
      getOneShotPrompt "this is a longer sentence okay now" "French" none ∧
    getTranslationPrompt "early bird gets it" "French" none =
      getMultiShotPrompt "early bird gets it" "French" none :=
  ⟨(getTranslationPrompt_heuristics "hi" "French" none).1 (by decide),
   (getTranslationPrompt_heuristics "this is a longer sentence okay now" "French" none).2.1
      (by decide) (by decide),
   (getTranslationPrompt_heuristics "early bird gets it" "French" none).2.2
      (by decide) (by decide)⟩

/-- Claim C6 (amended): the automatic classifier only ever selects the
zero-, one- or multi-shot prompt, and the explicit strategy-override entry
point also only ever returns one of those three (any unrecognized strategy
string falls back to automatic selection) — the stepwise-reasoning
(chain-of-thought) prompt is reachable from neither. -/
theorem getPromptByStrategy_range (text targetLang : String) (sourceLang : Option String)
    (strategy : String) :
    (getTranslationPrompt text targetLang sourceLang = getZeroShotPrompt text targetLang sourceLang ∨
     getTranslationPrompt text targetLang sourceLang = getOneShotPrompt text targetLang sourceLang ∨
     getTranslationPrompt text targetLang sourceLang = getMultiShotPrompt text targetLang sourceLang)
    ∧ (getPromptByStrategy text targetLang sourceLang strategy =
        getZeroShotPrompt text targetLang sourceLang ∨
       getPromptByStrategy text targetLang sourceLang strategy =
        getOneShotPrompt text targetLang sourceLang ∨
       getPromptByStrategy text targetLang sourceLang strategy =
        getMultiShotPrompt text targetLang sourceLang) := by
  have hauto : getTranslationPrompt text targetLang sourceLang =
      getZeroShotPrompt text targetLang sourceLang ∨
      getTranslationPrompt text targetLang sourceLang =
        getOneShotPrompt text targetLang sourceLang ∨
      getTranslationPrompt text targetLang sourceLang =
        getMultiShotPrompt text targetLang sourceLang := by
    unfold getTranslationPrompt
    dsimp only
    split_ifs
    · exact Or.inl rfl
    · exact Or.inr (Or.inl rfl)
    · exact Or.inr (Or.inr rfl)
  refine ⟨hauto, ?_⟩
  unfold getPromptByStrategy
  split_ifs
  · exact Or.inl rfl
  · exact Or.inr (Or.inl rfl)
  · exact Or.inr (Or.inr rfl)
  · exact hauto

/-- Counterexample to C6 as stated: no strategy string passed to the
override entry point produces the chain-of-thought prompt — the override
has no case for it. -/
theorem getPromptByStrategy_no_chainOfThought :
    ¬ ∃ s : String, getPromptByStrategy "hi" "French" none s =
      getChainOfThoughtPrompt "hi" "French" none := by
  rintro ⟨s, hs⟩
  unfold getPromptByStrategy at hs
  split_ifs at hs
  · exact absurd hs (by decide)
  · exact absurd hs (by decide)
  · exact absurd hs (by decide)
  · exact absurd hs (by decide)

/-- Claim C7: when retrieval misses and the model boundary fails, `translate`
returns status `error`, empty translated text and the diagnostic message in
the error field. (That `translate` never raises for any outcome is carried
by the totality of the embedded `translate` function itself: the JS `catch`
is the `Except.error` branch.) -/
theorem translate_upstream_error (now : Nat) (file : Option Glossary)
    (jsonParse : String → Option RawData) (text targetLang : String)
    (sourceLang : Option String) (msg : String)
    (hmiss : checkRAG now file text targetLang sourceLang = none) :
    (translate now file jsonParse text targetLang sourceLang (Except.error msg)).status =
      "error" ∧
    (translate now file jsonParse text targetLang sourceLang
      (Except.error msg)).translated_text = "" ∧
    (translate now file jsonParse text targetLang sourceLang (Except.error msg)).error =
      some msg := by
  unfold translate
  rw [hmiss]
  exact ⟨rfl, rfl, rfl⟩

/-- Witness for C7 at a concrete missing phrase and failure message. -/
theorem translate_upstream_error_witness :
    (translate 0 none (fun _ => none) "how are you" "French" none
      (Except.error "network timeout")).status = "error" ∧
    (translate 0 none (fun _ => none) "how are you" "French" none
      (Except.error "network timeout")).translated_text = "" ∧
    (translate 0 none (fun _ => none) "how are you" "French" none
      (Except.error "network timeout")).error = some "network timeout" :=
  translate_upstream_error 0 none (fun _ => none) "how are you" "French" none
    "network timeout" (by decide)

/-- Claim C2 (amended): a structured function call whose three required
fields are non-empty strings is used directly — the output mirrors
`sourceLang`, `targetLang` and `translatedText` with status `success` — but
the confidence is always 1.0: the payload's `confidence` argument is
ignored by `translate`. -/
theorem translate_structuredCall_mirror (now : Nat) (file : Option Glossary)
    (jsonParse : String → Option RawData) (text targetLang rtext : String)
    (sourceLang : Option String) (args : FunctionArgs) (s t tr : String)
    (hmiss : checkRAG now file text targetLang sourceLang = none)
    (hs : args.sourceLang = some s) (hs2 : s ≠ "")
    (ht : args.targetLang = some t) (ht2 : t ≠ "")
    (htr : args.translatedText = some tr) (htr2 : tr ≠ "") :
    translate now file jsonParse text targetLang sourceLang
        (Except.ok ⟨some ⟨some args⟩, rtext⟩) =
      { source_language := s, target_language := t, translated_text := tr,
        status := "success", timestamp := now, confidence := 1,
        cultural_notes := "", error := none, source := none } := by
  unfold translate
  rw [hmiss]
  dsimp only
  unfold formatStructuredOutput
  rw [hs, ht, htr, jsOr_some_of_ne _ hs2, jsOr_some_of_ne _ hs2,
    jsOr_some_of_ne _ ht2, jsOr_some_of_ne _ htr2]
  rfl

/-- Witness for C2: the concrete structured call carries confidence 0.5 but
the result mirrors the three fields with confidence 1. -/
theorem translate_structuredCall_mirror_witness :
    translate 0 none (fun _ => none) "how are you" "French" none
        (Except.ok ⟨some ⟨some { sourceLang := some "English", targetLang := some "French", translatedText := some "Bonjour", confidence := some (1/2) }⟩, "raw"⟩) =
      { source_language := "English", target_language := "French", translated_text := "Bonjour",
        status := "success", timestamp := 0, confidence := 1,
        cultural_notes := "", error := none, source := none } :=
  translate_structuredCall_mirror 0 none (fun _ => none) "how are you" "French" "raw" none
    { sourceLang := some "English", targetLang := some "French", translatedText := some "Bonjour", confidence := some (1/2) }
    "English" "French" "Bonjour" (by decide) rfl (by decide) rfl (by decide) rfl (by decide)

/-- Counterexample to C2 as stated: the payload carries confidence 0.5, yet
the result's confidence is 1 — the confidence is not taken from the payload. -/
theorem translate_confidence_ignored :
    (translate 0 none (fun _ => none) "how are you" "French" none
      (Except.ok ⟨some ⟨some { sourceLang := some "English", targetLang := some "French", translatedText := some "Bonjour", confidence := some (1/2) }⟩, "raw"⟩)).confidence = 1 ∧
    ¬((translate 0 none (fun _ => none) "how are you" "French" none
      (Except.ok ⟨some ⟨some { sourceLang := some "English", targetLang := some "French", translatedText := some "Bonjour", confidence := some (1/2) }⟩, "raw"⟩)).confidence = 1/2) := by
  have h1 : (translate 0 none (fun _ => none) "how are you" "French" none
      (Except.ok ⟨some ⟨some { sourceLang := some "English", targetLang := some "French", translatedText := some "Bonjour", confidence := some (1/2) }⟩, "raw"⟩)).confidence = 1 := by
    decide
  refine ⟨h1, ?_⟩
  rw [h1]
  norm_num

/-- Claim C1 (amended): on parse failure of a detected brace span the
interpreter returns the full trimmed response with status `partial_success`
and the diagnostic error note (target language from the request, source
language from the request or `unknown`); when no span is found at all it
returns the full trimmed response with status `success` and a null error
(target language from the request, source language from the request or
`auto-detected`). -/
theorem parseTextResponse_fallback (jsonParse : String → Option RawData) (now : Nat)
    (response targetLang : String) (sourceLang : Option String) :
    (∀ span, braceSpan response = some span → jsonParse span = none →
      (parseTextResponse jsonParse now response targetLang sourceLang).status =
        "partial_success" ∧
      (parseTextResponse jsonParse now response targetLang sourceLang).translated_text =
        jsTrim response ∧
      (parseTextResponse jsonParse now response targetLang sourceLang).target_language =
        targetLang ∧
      (parseTextResponse jsonParse now response targetLang sourceLang).error =
        some "Failed to parse structured response" ∧
      (parseTextResponse jsonParse now response targetLang sourceLang).source_language =
        jsOr sourceLang "unknown")
    ∧ (braceSpan response = none →
      (parseTextResponse jsonParse now response targetLang sourceLang).status = "success" ∧
      (parseTextResponse jsonParse now response targetLang sourceLang).translated_text =
        jsTrim response ∧
      (parseTextResponse jsonParse now response targetLang sourceLang).target_language =
        targetLang ∧
      (parseTextResponse jsonParse now response targetLang sourceLang).error = none ∧
      (parseTextResponse jsonParse now response targetLang sourceLang).source_language =
        jsOr sourceLang "auto-detected") := by
  constructor
  · intro span h1 h2
    unfold parseTextResponse
    rw [h1]
    dsimp only
    rw [h2]
    dsimp only
    refine ⟨rfl, jsOr_some_empty _, jsOr_some_empty _, rfl, ?_⟩
    exact jsOr_some_of_ne _ (jsOr_ne_empty sourceLang (by decide))
  · intro h1
    unfold parseTextResponse
    rw [h1]
    dsimp only
    exact ⟨rfl, jsOr_some_empty _, jsOr_some_empty _, rfl, jsOr_some_jsOr _ _⟩

/-- Witness for C1: a malformed span degrades to `partial_success`, a
span-free response passes through as `success`. -/
theorem parseTextResponse_fallback_witness :
    (parseTextResponse (fun _ => none) 0 "x{y}" "French" none).status = "partial_success" ∧
    (parseTextResponse (fun _ => none) 0 " Salut " "French" none).status = "success" :=
  ⟨((parseTextResponse_fallback (fun _ => none) 0 "x{y}" "French" none).1 "{y}"
      (by decide) rfl).1,
   ((parseTextResponse_fallback (fun _ => none) 0 " Salut " "French" none).2 (by decide)).1⟩

/-- Counterexample to C1 as stated: with no brace span in the response, the
result's status is `success` with a null error field, not `partial_success`
with a diagnostic. -/
theorem parseTextResponse_noSpan_success :
    (parseTextResponse (fun _ => none) 0 "Bonjour" "French" none).status = "success" ∧
    (parseTextResponse (fun _ => none) 0 "Bonjour" "French" none).status ≠
      "partial_success" ∧
    (parseTextResponse (fun _ => none) 0 "Bonjour" "French" none).error = none := by
  exact ⟨rfl, by decide, rfl⟩

/-- Claim C9 (amended): empty or whitespace-only text is a miss for any
loaded glossary without an empty-string key, and a storage read failure is
swallowed by falling back to the built-in default glossary — resolution
continues (and may even hit) rather than yielding a forced miss. -/
theorem checkRAG_empty_miss (now : Nat) (file : Option Glossary) (text targetLang : String)
    (sl : Option String)
    (hempty : jsTrim (jsToLower text) = "")
    (hnokey : glossaryLookup (loadGlossary file) "" targetLang = none) :
    checkRAG now file text targetLang sl = none ∧
    (∀ (n : Nat) (t L : String) (s : Option String),
      checkRAG n none t L s = checkRAG n (some DEFAULT_GLOSSARY) t L s) := by
  constructor
  · have htruthy : truthyLookup (loadGlossary file) "" targetLang = none := by
      simp [truthyLookup, hnokey]
    unfold checkRAG
    dsimp only
    rw [hempty, htruthy]
    unfold findPartialMatch
    dsimp only
    rw [if_neg]
    intro hall
    have hsplit : jsSplitWS "" = [""] := rfl
    rw [hsplit] at hall
    simp only [List.all_cons, List.all_nil, Bool.and_true] at hall
    rw [htruthy] at hall
    simp at hall
  · intro n t L s
    rfl

/-- Witness for C9: whitespace-only input misses even when the glossary
file is unreadable. -/
theorem checkRAG_empty_miss_witness :
    checkRAG 0 none "   " "French" none = none :=
  (checkRAG_empty_miss 0 none "   " "French" none (by decide) (by decide)).1

/-- Counterexample to C9 as stated: with the glossary file unreadable
(a storage read failure) the resolver falls back to the default glossary
and `"hello"` → Spanish still **hits** — the failure is not turned into a
miss. -/
theorem checkRAG_readFailure_still_hits :
    (checkRAG 0 none "hello" "Spanish" none).isSome = true ∧
    (checkRAG 0 none "hello" "Spanish" none).map TranslationResult.translated_text =
      some "hola" := by
  exact ⟨by decide, by decide⟩

/-- Claim C10 (amended): an exact glossary hit reports the caller-supplied
source language only when it is a non-empty string; an absent or empty
source language reports `auto-detected` (the JS `||` treats the empty
string like absence) — while compositional hits always report
`auto-detected`. -/
theorem checkRAG_exactHit_sourceLanguage (now : Nat) (file : Option Glossary)
    (x L tr : String) (sl : Option String)
    (hhit : truthyLookup (loadGlossary file) (jsTrim (jsToLower x)) L = some tr) :
    (checkRAG now file x L sl).map TranslationResult.source_language =
      some (jsOr sl "auto-detected") ∧
    (∀ (n : Nat) (t L2 : String) (g : Glossary) (r : TranslationResult),
      findPartialMatch n t L2 g = some r → r.source_language = "auto-detected") := by
  constructor
  · unfold checkRAG
    dsimp only
    rw [hhit]
    dsimp only [Option.map]
    rw [createSuccessResponse_spec]
    exact congrArg some (jsOr_some_jsOr sl "auto-detected")
  · exact fun n t L2 g r h => findPartialMatch_source_language n t L2 g r h

/-- Witness for C10: a non-empty caller-supplied source language is
returned unchanged on the exact hit `"HELLO "` → Spanish. -/
theorem checkRAG_exactHit_sourceLanguage_witness :
    (checkRAG 0 none "HELLO " "Spanish" (some "English")).map
        TranslationResult.source_language =
      some (jsOr (some "English") "auto-detected") :=
  (checkRAG_exactHit_sourceLanguage 0 none "HELLO " "Spanish" "hola"
    (some "English") (by decide)).1

/-- Counterexample to C10 as stated: the caller supplies the (empty-string)
source language `""`, yet the exact hit reports `auto-detected` instead of
returning the supplied value unchanged. -/
theorem checkRAG_emptySource_autoDetected :
    (checkRAG 0 none "hello" "Spanish" (some "")).map TranslationResult.source_language =
      some "auto-detected" ∧
    ¬((checkRAG 0 none "hello" "Spanish" (some "")).map TranslationResult.source_language =
      some "") := by
  exact ⟨by decide, by decide⟩

end Tranzio
